import Mathlib

/-!
# Verification of the Compare-Agent orchestration core

A shallow embedding, in Lean 4, of the budget-bounded comparison workflow of
the Compare-Agent repository: the orchestrator (`backend/agent/orchestrator.py`),
the workflow steps (`backend/agent/steps.py`) and the GLM tool-call loop /
retry policy (`backend/api/glm_client.py`).  Pure helpers (price parsing,
cache-key derivation including SHA-256, ranking reconciliation) are embedded
directly; effectful code is embedded as explicit state/trace-passing functions
whose external collaborators (provider responses, cache contents, worker
completion order) are parameters.
-/

namespace CompareAgent

/-! ## SHA-256 (as used by `hashlib.sha256(...).hexdigest()` in `_hash_query`) -/

def w32 (n : Nat) : Nat := n % 4294967296

def rotr (n x : Nat) : Nat := w32 ((x >>> n) ||| (x <<< (32 - n)))

def bSig0 (x : Nat) : Nat := (rotr 2 x) ^^^ (rotr 13 x) ^^^ (rotr 22 x)

def bSig1 (x : Nat) : Nat := (rotr 6 x) ^^^ (rotr 11 x) ^^^ (rotr 25 x)

def sSig0 (x : Nat) : Nat := (rotr 7 x) ^^^ (rotr 18 x) ^^^ (x >>> 3)

def sSig1 (x : Nat) : Nat := (rotr 17 x) ^^^ (rotr 19 x) ^^^ (x >>> 10)

def chFn (x y z : Nat) : Nat := (x &&& y) ^^^ ((x ^^^ 4294967295) &&& z)

def majFn (x y z : Nat) : Nat := (x &&& y) ^^^ (x &&& z) ^^^ (y &&& z)

def sha256K : List Nat :=
  [1116352408, 1899447441, 3049323471, 3921009573,
   961987163, 1508970993, 2453635748, 2870763221,
   3624381080, 310598401, 607225278, 1426881987,
   1925078388, 2162078206, 2614888103, 3248222580,
   3835390401, 4022224774, 264347078, 604807628,
   770255983, 1249150122, 1555081692, 1996064986,
   2554220882, 2821834349, 2952996808, 3210313671,
   3336571891, 3584528711, 113926993, 338241895,
   666307205, 773529912, 1294757372, 1396182291,
   1695183700, 1986661051, 2177026350, 2456956037,
   2730485921, 2820302411, 3259730800, 3345764771,
   3516065817, 3600352804, 4094571909, 275423344,
   430227734, 506948616, 659060556, 883997877,
   958139571, 1322822218, 1537002063, 1747873779,
   1955562222, 2024104815, 2227730452, 2361852424,
   2428436474, 2756734187, 3204031479, 3329325298]

def sha256H0 : List Nat :=
  [1779033703, 3144134277, 1013904242, 2773480762,
   1359893119, 2600822924, 528734635, 1541459225]

/-- Big-endian bytes of `n`, `k` bytes wide. -/
def beBytes (k n : Nat) : List Nat :=
  (List.range k).map (fun i => (n >>> ((k - 1 - i) * 8)) % 256)

/-- SHA-256 message padding over a byte list. -/
def sha256Pad (msg : List Nat) : List Nat :=
  let len := msg.length
  let zeros := (64 + 56 - ((len + 1) % 64)) % 64
  msg ++ [0x80] ++ List.replicate zeros 0 ++ beBytes 8 (len * 8)

/-- Split a list into chunks of `n` elements (fuel-structured so that the
kernel can evaluate it). -/
def chunksGo (n : Nat) : Nat → List α → List (List α)
  | _, [] => []
  | 0, xs => [xs]
  | fuel + 1, x :: xs =>
    if n = 0 then [x :: xs]
    else ((x :: xs).take n) :: chunksGo n fuel ((x :: xs).drop n)

def chunksOf (n : Nat) (xs : List α) : List (List α) := chunksGo n xs.length xs

/-- Combine each group of 4 bytes into a big-endian 32-bit word. -/
def bytesToWords : List Nat → List Nat
  | b0 :: b1 :: b2 :: b3 :: rest =>
      (((b0 * 256 + b1) * 256 + b2) * 256 + b3) :: bytesToWords rest
  | _ => []

/-- Extend the 16 message words to the 64-entry SHA-256 schedule. -/
def extendSchedule (w : Array Nat) : Array Nat :=
  (List.range 48).foldl
    (fun w _ =>
      let t := w.size
      w.push (w32 (sSig1 (w.getD (t - 2) 0) + w.getD (t - 7) 0 +
        sSig0 (w.getD (t - 15) 0) + w.getD (t - 16) 0)))
    w

/-- One SHA-256 compression round. -/
def sha256Round (st : Nat × Nat × Nat × Nat × Nat × Nat × Nat × Nat)
    (kw : Nat × Nat) : Nat × Nat × Nat × Nat × Nat × Nat × Nat × Nat :=
  let (a, b, c, d, e, f, g, h) := st
  let t1 := w32 (h + bSig1 e + chFn e f g + kw.1 + kw.2)
  let t2 := w32 (bSig0 a + majFn a b c)
  (w32 (t1 + t2), a, b, c, w32 (d + t1), e, f, g)

/-- Process one 64-byte chunk, updating the hash state. -/
def sha256Chunk (h : List Nat) (chunk : List Nat) : List Nat :=
  let w := extendSchedule (Array.mk (bytesToWords chunk))
  let init : Nat × Nat × Nat × Nat × Nat × Nat × Nat × Nat :=
    (h.getD 0 0, h.getD 1 0, h.getD 2 0, h.getD 3 0,
     h.getD 4 0, h.getD 5 0, h.getD 6 0, h.getD 7 0)
  let (a, b, c, d, e, f, g, hh) :=
    (sha256K.zip w.toList).foldl sha256Round init
  [w32 (h.getD 0 0 + a), w32 (h.getD 1 0 + b), w32 (h.getD 2 0 + c),
   w32 (h.getD 3 0 + d), w32 (h.getD 4 0 + e), w32 (h.getD 5 0 + f),
   w32 (h.getD 6 0 + g), w32 (h.getD 7 0 + hh)]

def hexDigit (n : Nat) : Char :=
  if n < 10 then Char.ofNat (48 + n) else Char.ofNat (87 + n)

def wordToHex (n : Nat) : List Char :=
  (List.range 8).map (fun i => hexDigit ((n >>> ((7 - i) * 4)) % 16))

/-- SHA-256 hex digest of a byte list. -/
def sha256Hex (msg : List Nat) : String :=
  let final := (chunksOf 64 (sha256Pad msg)).foldl sha256Chunk sha256H0
  String.mk (final.foldr (fun wd acc => wordToHex wd ++ acc) [])

/-- UTF-8 encoding of one character (Python `str.encode("utf-8")`). -/
def utf8EncodeChar (c : Char) : List Nat :=
  let n := c.toNat
  if n < 0x80 then [n]
  else if n < 0x800 then
    [0xC0 ||| (n >>> 6), 0x80 ||| (n &&& 0x3F)]
  else if n < 0x10000 then
    [0xE0 ||| (n >>> 12), 0x80 ||| ((n >>> 6) &&& 0x3F), 0x80 ||| (n &&& 0x3F)]
  else
    [0xF0 ||| (n >>> 18), 0x80 ||| ((n >>> 12) &&& 0x3F),
     0x80 ||| ((n >>> 6) &&& 0x3F), 0x80 ||| (n &&& 0x3F)]

def utf8Bytes (s : String) : List Nat :=
  (s.data.map utf8EncodeChar).flatten

/-! ## Cache keys (`orchestrator._hash_query`, `steps._normalize_category`,
`steps._product_cache_key`) -/

/-- The model of `_hash_query`: sha256 hexdigest of `f"{category}|{constraints or ''}"`. -/
def hashQuery (category : String) (constraints : Option String) : String :=
  sha256Hex (utf8Bytes (category ++ "|" ++ constraints.getD ""))

/-- The comparison cache key the orchestrator consults:
`"comparison:" + _hash_query(category.lower().strip(), constraints)`. -/
def comparisonCacheKey (category : String) (constraints : Option String) : String :=
  "comparison:" ++ hashQuery category.toLower.trim constraints

/-- The model of `_normalize_category`: lower, strip, replace spaces by underscores. -/
def normalizeCategory (category : String) : String :=
  (category.toLower.trim).replace " " "_"

/-- Metrics cache key used by `glm_discovery`. -/
def metricsCacheKey (category : String) : String :=
  "metrics:" ++ normalizeCategory category

/-! ## Price normalization (`steps._parse_price_string`,
`steps._normalize_numeric_price`, `steps._extract_price_cents`) -/

/-- An exact (unnormalized) fraction `num / den`, `den > 0` by construction:
the idealization of a Python float used throughout the price logic.  Plain
integer arithmetic keeps every operation kernel-evaluable. -/
structure DecFloat where
  num : Int
  den : Nat
deriving DecidableEq, Repr

/-- The model of `q ≤ 0` for a `DecFloat` with positive denominator. -/
def decNonpos (q : DecFloat) : Bool := q.num ≤ 0

/-- The model of `q < n` for a natural bound `n`. -/
def decLtNat (q : DecFloat) (n : Nat) : Bool := q.num < (n : Int) * (q.den : Int)

/-- The model of `q * k` for a natural scalar `k`. -/
def decMulNat (q : DecFloat) (k : Nat) : DecFloat := { num := q.num * k, den := q.den }

/-- Python `round` (round half to even, as used via `int(round(x))`). -/
def pyRound (q : DecFloat) : Int :=
  let d : Int := (q.den : Int)
  let f := Int.fdiv q.num d
  let rem := q.num - f * d
  if 2 * rem < d then f
  else if d < 2 * rem then f + 1
  else if f % 2 = 0 then f else f + 1

/-- Case-insensitive "starts with" over char lists (pattern given lowercase). -/
def ciStartsWith : List Char → List Char → Bool
  | [], _ => true
  | _ :: _, [] => false
  | p :: ps, c :: cs => (c.toLower == p) && ciStartsWith ps cs

/-- The model of `re.sub(r"(usd|dollars|us\$)", "", cleaned, flags=IGNORECASE)`:
leftmost, non-overlapping removal, alternatives tried in pattern order
(fuel-structured so that the kernel can evaluate it). -/
def stripCurrencyGo : Nat → List Char → List Char
  | _, [] => []
  | 0, cs => cs
  | fuel + 1, c :: cs =>
    if ciStartsWith ['u', 's', 'd'] (c :: cs) then stripCurrencyGo fuel (cs.drop 2)
    else if ciStartsWith ['d', 'o', 'l', 'l', 'a', 'r', 's'] (c :: cs) then
      stripCurrencyGo fuel (cs.drop 6)
    else if ciStartsWith ['u', 's', '$'] (c :: cs) then stripCurrencyGo fuel (cs.drop 2)
    else c :: stripCurrencyGo fuel cs

def stripCurrencyWords (cs : List Char) : List Char := stripCurrencyGo cs.length cs

/-- Python `str.strip()` over a char list. -/
def pyStrip (cs : List Char) : List Char :=
  ((cs.dropWhile Char.isWhitespace).reverse.dropWhile Char.isWhitespace).reverse

def isNumTokChar (c : Char) : Bool := c.isDigit || c == ',' || c == '.'

/-- The model of `re.search(r"(-?\d[\d,\.]*)", cleaned)`: the first maximal numeric token. -/
def findNumericToken : List Char → Option (List Char)
  | [] => Option.none
  | c :: cs =>
    if c.isDigit then some (c :: cs.takeWhile isNumTokChar)
    else if c == '-' then
      match cs with
      | d :: ds =>
        if d.isDigit then some ('-' :: d :: ds.takeWhile isNumTokChar)
        else findNumericToken cs
      | [] => Option.none
    else findNumericToken cs

def digitsToNat (cs : List Char) : Nat :=
  cs.foldl (fun a c => a * 10 + (c.toNat - 48)) 0

/-- Python `float(...)` on a numeric token (sign, digits, at most one dot). -/
def parsePyFloat (cs : List Char) : Option DecFloat :=
  let signed : Bool × List Char :=
    match cs with
    | '-' :: rest => (true, rest)
    | _ => (false, cs)
  let body := signed.2
  if body.isEmpty then Option.none
  else if !body.all (fun c => c.isDigit || c == '.') then Option.none
  else if body.count '.' > 1 then Option.none
  else
    let intPart := body.takeWhile (· ≠ '.')
    let fracPart := (body.dropWhile (· ≠ '.')).drop 1
    if intPart.isEmpty && fracPart.isEmpty then Option.none
    else
      let den := 10 ^ fracPart.length
      let mag : Int := ((digitsToNat intPart * den + digitsToNat fracPart : Nat) : Int)
      some { num := if signed.1 then -mag else mag, den := den }

/-- The model of `_parse_price_string`: strip currency words, take the first numeric token,
treat it as dollars, return positive integer cents (`None` otherwise). -/
def parsePriceString (raw : Option String) : Option Int :=
  match raw with
  | Option.none => Option.none
  | some s =>
    if s.data.isEmpty then Option.none
    else
      let cleaned := pyStrip s.data
      if cleaned.isEmpty then Option.none
      else
        match findNumericToken (stripCurrencyWords cleaned) with
        | Option.none => Option.none
        | some tok =>
          match parsePyFloat (tok.filter (· ≠ ',')) with
          | Option.none => Option.none
          | some dollars =>
            if decNonpos dollars then Option.none
            else some (pyRound (decMulNat dollars 100))

/-- Dynamically-typed JSON scalar, as the payload values seen by
`_extract_price_cents`. -/
inductive PyVal where
  | str (s : String)
  | int (n : Int)
  | float (q : DecFloat)
  | bool (b : Bool)
  | noneVal
deriving DecidableEq, Repr

/-- Python truthiness of a `PyVal` (used by `if payload[key]:` checks). -/
def pyTruthy : PyVal → Bool
  | .str s => !s.data.isEmpty
  | .int n => n != 0
  | .float q => q.num != 0
  | .bool b => b
  | .noneVal => false

/-- The model of `_normalize_numeric_price`: bools rejected; floats `<100000` are dollars,
else already cents; ints with `<=4` digits are dollars, `>=5` digits cents. -/
def normalizeNumericPrice : PyVal → Option Int
  | .bool _ => Option.none
  | .float q =>
    if decNonpos q then Option.none
    else if decLtNat q 100000 then some (pyRound (decMulNat q 100))
    else some (pyRound q)
  | .int n =>
    if n ≤ 0 then Option.none
    else
      let digits := (toString n.natAbs).length
      if n ≥ 1000000 then some n
      else if digits ≥ 5 then some n
      else some (n * 100)
  | _ => Option.none

def priceStringKeys : List String :=
  ["price_display", "price_formatted", "price_text", "price_string", "price_str"]

def lookupKey (payload : List (String × PyVal)) (k : String) : Option PyVal :=
  (payload.find? (fun kv => kv.1 == k)).map (·.2)

/-- The candidate price sources, in the order `_extract_price_cents` builds
them: the `price` field (if present) then each truthy string-typed key. -/
def buildSources (payload : List (String × PyVal)) : List (String × PyVal) :=
  (match lookupKey payload "price" with
   | some v => [("price", v)]
   | Option.none => []) ++
  priceStringKeys.filterMap (fun k =>
    match lookupKey payload k with
    | some v => if pyTruthy v then some (k, v) else Option.none
    | Option.none => Option.none)

/-- First source whose value is a string parsing to nonzero cents. -/
def firstStringHit : List (String × PyVal) → Option (Int × String)
  | [] => Option.none
  | (k, v) :: rest =>
    match v with
    | .str s =>
      match parsePriceString (some s) with
      | some c => if c != 0 then some (c, k) else firstStringHit rest
      | Option.none => firstStringHit rest
    | _ => firstStringHit rest

/-- First source whose value is numeric (int/float/bool) normalizing to
nonzero cents. -/
def firstNumericHit : List (String × PyVal) → Option (Int × String)
  | [] => Option.none
  | (k, v) :: rest =>
    let cents : Option Int :=
      match v with
      | .int n => normalizeNumericPrice (.int n)
      | .float q => normalizeNumericPrice (.float q)
      | .bool b => normalizeNumericPrice (.bool b)
      | _ => Option.none
    match cents with
    | some c => if c != 0 then some (c, k) else firstNumericHit rest
    | Option.none => firstNumericHit rest

/-- The model of `_extract_price_cents`: string-typed sources are tried first (in source
order), then numeric sources; failure yields `(0, "unparsed")`. -/
def extractPriceCents (payload : List (String × PyVal)) : Int × String :=
  let sources := buildSources payload
  match firstStringHit sources with
  | some r => r
  | Option.none =>
    match firstNumericHit sources with
    | some r => r
    | Option.none => (0, "unparsed")

/-! ## The GLM tool-call loop (`GlmClient.call`) -/

structure ToolCallM where
  type : String
  functionName : String
  query : String
deriving DecidableEq, Repr

structure ResponseM where
  hasChoices : Bool
  toolCalls : List ToolCallM
  usageSearchSteps : Nat
deriving DecidableEq, Repr

inductive Dispatch where
  | executed
  | shortCircuited
deriving DecidableEq, Repr

/-- The model of `is_search_call` in `GlmClient.call`. -/
def isSearchCall (tc : ToolCallM) : Bool :=
  tc.type == "web_search" || tc.functionName == "web_search"

/-- The model of `max_tool_iterations = max(6, max_searches * 3 if max_searches else 6)`. -/
def maxToolIterations (maxSearches : Nat) : Nat :=
  max 6 (if maxSearches == 0 then 6 else maxSearches * 3)

/-- The per-iteration tool-call classification: each call is either executed
via `_execute_tool_call` or short-circuited with an exhausted payload; the
Bool records `consumes_budget`.  Mirrors the `for tool_call in tool_calls`
loop over `remaining_budget`. -/
def classifyGo (maxSearches : Nat) :
    Option Int → List ToolCallM → List (ToolCallM × Dispatch × Bool)
  | _, [] => []
  | rem, tc :: rest =>
    if isSearchCall tc && maxSearches > 0 then
      match rem with
      | some r =>
        if r ≤ 0 then (tc, .shortCircuited, false) :: classifyGo maxSearches rem rest
        else (tc, .executed, true) :: classifyGo maxSearches (some (r - 1)) rest
      | Option.none => (tc, .executed, true) :: classifyGo maxSearches Option.none rest
    else (tc, .executed, false) :: classifyGo maxSearches rem rest

/-- The model of `remaining_budget = max_searches - searches_used if max_searches else None`
followed by the classification loop. -/
def classifyToolCalls (maxSearches searchesUsed : Nat) (tcs : List ToolCallM) :
    List (ToolCallM × Dispatch × Bool) :=
  classifyGo maxSearches
    (if maxSearches == 0 then Option.none
     else some ((maxSearches : Int) - (searchesUsed : Int))) tcs

structure LoopResult where
  response : Option ResponseM
  totalSearches : Nat
  providerCalls : Nat
  dispatches : List (ToolCallM × Dispatch)
deriving DecidableEq, Repr

/-- The iteration loop of `GlmClient.call`, with the provider's responses
given as a function of the iteration index.  Returns the terminal response
(`none` models `last_response or {"choices": []}` falling back after the
ceiling with no response recorded), the aggregated search count, the number
of provider round-trips, and the dispatch decision taken for every tool call
seen. -/
def runToolLoopAux (maxSearches : Nat) (provider : Nat → ResponseM) :
    Nat → Nat → Nat → Nat → List (ToolCallM × Dispatch) → Option ResponseM → LoopResult
  | 0, iter, _, total, disp, last =>
    { response := last, totalSearches := total, providerCalls := iter, dispatches := disp }
  | fuel + 1, iter, searchesUsed, total, disp, _ =>
    let resp := provider iter
    let total := total + resp.usageSearchSteps
    if !resp.hasChoices then
      { response := some resp, totalSearches := total, providerCalls := iter + 1,
        dispatches := disp }
    else if resp.toolCalls.isEmpty then
      { response := some resp, totalSearches := total, providerCalls := iter + 1,
        dispatches := disp }
    else
      let cls := classifyToolCalls maxSearches searchesUsed resp.toolCalls
      let consumed := (cls.filter (fun e => e.2.2)).length
      runToolLoopAux maxSearches provider fuel (iter + 1) (searchesUsed + consumed)
        (total + (if resp.usageSearchSteps > 0 then 0 else consumed))
        (disp ++ cls.map (fun e => (e.1, e.2.1))) (some resp)

def runToolLoop (maxSearches : Nat) (provider : Nat → ResponseM) : LoopResult :=
  runToolLoopAux maxSearches provider (maxToolIterations maxSearches) 0 0 0 [] Option.none

/-- An executed `web_search` tool call with a nonempty string query reaches
`brave.search` inside `_execute_tool_call`. -/
def hitsSearchProvider (tc : ToolCallM) (d : Dispatch) : Bool :=
  d == Dispatch.executed && isSearchCall tc && !tc.query.isEmpty

/-! ## Provider retry policy (`GlmClient._post`) -/

/-- Failure classes raised inside `send_request`: `auth` for 401/403
(`GlmClientError`), `rateLimit` for 429 (`GlmRateLimitError`), `timeout` for
`httpx.TimeoutException` re-raised as `GlmTimeoutError`, `transportOther` for
any other `httpx.RequestError`, `apiError` for malformed/error payloads
(`GlmClientError`). -/
inductive GlmFailure where
  | auth
  | rateLimit
  | timeout
  | transportOther
  | apiError
deriving DecidableEq, Repr

/-- The model of `retry_if_exception_type((httpx.RequestError, GlmRateLimitError))`: only a
rate-limit error or a non-timeout transport error is retried (timeouts have
already been converted to `GlmTimeoutError`, which does not match). -/
def retriable : GlmFailure → Bool
  | .rateLimit => true
  | .transportOther => true
  | _ => false

inductive PostOutcome (α : Type) where
  | ok (a : α)
  | fatal (e : GlmFailure)
  | retriesExhausted
deriving DecidableEq, Repr

/-- The tenacity retry loop: attempt `i` runs `f i`; a retriable failure is
retried while attempts remain, a non-retriable failure propagates at once;
exhaustion surfaces as `GlmClientError("Exceeded maximum retry attempts")`.
Returns the outcome and the number of attempts made. -/
def retryGo (f : Nat → Except GlmFailure α) : Nat → Nat → PostOutcome α × Nat
  | i, 0 => (.retriesExhausted, i)
  | i, fuel + 1 =>
    match f i with
    | .ok a => (.ok a, i + 1)
    | .error e =>
      if retriable e then
        if fuel = 0 then (.retriesExhausted, i + 1)
        else retryGo f (i + 1) fuel
      else (.fatal e, i + 1)

/-- The model of `_post`: `stop_after_attempt((glm_max_retries or 0) + 1)`. -/
def glmPost (maxRetries : Nat) (f : Nat → Except GlmFailure α) : PostOutcome α × Nat :=
  retryGo f 0 (maxRetries + 1)

/-! ## Discovery step (`steps.glm_discovery`): cache interaction and writes -/

structure DiscoveryPayloadM where
  status : String
  metrics : List String
  productNames : List String
deriving DecidableEq, Repr

/-- The model of `glm_discovery`, abstracted over its collaborators: the metrics-cache
lookup result and the parsed live response.  Returns
`(api_calls, used_cache, cache writes)`; `ValueError` paths are `.error`.
The cache write on the live path (line 337) is unconditional in `use_cache`. -/
def glmDiscoveryM (useCache : Bool) (cachedMetrics : Option (List String))
    (live : Except String DiscoveryPayloadM) (category : String) :
    Except String (Nat × Bool × List String) :=
  match (if useCache then cachedMetrics else Option.none) with
  | some _ => .ok (0, true, [])
  | Option.none =>
    match live with
    | .error e => .error e
    | .ok p =>
      if p.status != "SUCCESS" then
        .error "Request is not a topical consumer product comparison."
      else if p.productNames.isEmpty then
        .error "Discovery did not return any products."
      else .ok (1, false, [metricsCacheKey category])

/-! ## Research fan-out (`steps.research_products`) -/

structure CandidateM where
  productId : Option String
  name : String
deriving DecidableEq, Repr

/-- The model of `_product_cache_key`: `product:{product_id or normalized name}:{date}`.
The UTC date is a parameter. -/
def productCacheKey (dateKey : String) (c : CandidateM) : String :=
  let identifier :=
    match c.productId with
    | some pid => if pid.data.isEmpty then c.name.toLower.trim.replace " " "_" else pid
    | Option.none => c.name.toLower.trim.replace " " "_"
  "product:" ++ identifier ++ ":" ++ dateKey

structure ResearchItemM where
  candidateId : String
  title : String
deriving DecidableEq, Repr

/-- What one `worker` closure contributes: a cache hit, a live success with
its search count and per-product cache write, or an isolated failure. -/
inductive WorkerOutcome where
  | cacheHit (r : ResearchItemM)
  | success (r : ResearchItemM) (searches : Nat) (writeKey : String)
  | failure (productName : String) (err : String)
deriving DecidableEq, Repr

/-- Inputs a worker depends on: its candidate, the per-product cache lookup
result, and the outcome of `_run_product_research`. -/
structure WorkerInputM where
  candidate : CandidateM
  cached : Option ResearchItemM
  live : Except String (ResearchItemM × Nat)
deriving Repr

/-- The live branch of `worker`: success stores the payload in the cache,
an exception is recorded in the failure list. -/
def runWorkerLive (dateKey : String) (w : WorkerInputM) : WorkerOutcome :=
  match w.live with
  | .ok (r, s) => .success r s (productCacheKey dateKey w.candidate)
  | .error e => .failure w.candidate.name e

/-- The model of `worker`: the cache is consulted only when `use_cache` is set; on a hit
the worker returns without a live call or a write. -/
def runWorker (useCache : Bool) (dateKey : String) (w : WorkerInputM) : WorkerOutcome :=
  if useCache then
    match w.cached with
    | some r => .cacheHit r
    | Option.none => runWorkerLive dateKey w
  else runWorkerLive dateKey w

structure ResearchAgg where
  successes : List ResearchItemM
  failures : List (String × String)
  cacheHits : Nat
  totalSearches : Nat
  writes : List String
deriving DecidableEq, Repr

def emptyAgg : ResearchAgg :=
  { successes := [], failures := [], cacheHits := 0, totalSearches := 0, writes := [] }

/-- The `nonlocal`-mutated accumulation one finished worker performs. -/
def aggStep (acc : ResearchAgg) (o : WorkerOutcome) : ResearchAgg :=
  match o with
  | .cacheHit r =>
    { acc with successes := acc.successes ++ [r], cacheHits := acc.cacheHits + 1 }
  | .success r s k =>
    { acc with
      successes := acc.successes ++ [r]
      totalSearches := acc.totalSearches + s
      writes := acc.writes ++ [k] }
  | .failure n e => { acc with failures := acc.failures ++ [(n, e)] }

/-- The model of `research_products`: workers append to the shared lists as each one
finishes, so the input here is the worker inputs *in completion order*; the
returned `Nat` is the step's `api_calls = total_searches + len(failures)`.
No reordering of `successes` is performed before returning. -/
def researchProductsAgg (useCache : Bool) (dateKey : String)
    (completionOrder : List WorkerInputM) : ResearchAgg × Nat :=
  let agg := completionOrder.foldl
    (fun acc w => aggStep acc (runWorker useCache dateKey w)) emptyAgg
  (agg, agg.totalSearches + agg.failures.length)

/-! ## Ranking reconciliation (`steps._match_research_product`,
`steps.generate_comparison_payload`) -/

structure RankingEntryM where
  productId : Option String
  productTitle : Option String
  rank : Option Int
  rating : Option DecFloat
deriving DecidableEq, Repr

structure RProdM where
  candidateId : String
  extractionId : String
  title : String
  priorRating : Option String
deriving DecidableEq, Repr

/-- Python truthiness of an optional string (`if product_id:`). -/
def optTruthy : Option String → Bool
  | some s => !s.data.isEmpty
  | Option.none => false

/-- The id-match predicate of `_match_research_product`. -/
def idMatches (pid : String) (p : RProdM) : Bool :=
  p.candidateId == pid || p.extractionId == pid

/-- The model of `_match_research_product`: first by exact candidate/extraction id (when
the entry's id is truthy), then by case-insensitive exact title. -/
def matchResearchProduct (entry : RankingEntryM) (research : List RProdM) :
    Option RProdM :=
  match (if optTruthy entry.productId then
           research.find? (idMatches (entry.productId.getD ""))
         else Option.none) with
  | some p => some p
  | Option.none =>
    if optTruthy entry.productTitle then
      let normalized := (entry.productTitle.getD "").toLower.trim
      research.find? (fun p => p.title.toLower.trim == normalized)
    else Option.none

/-- Python `f"{float(rating):.1f}"` rendering of a rational. -/
def formatOneDecimal (q : DecFloat) : String :=
  let scaled := pyRound (decMulNat q 10)
  let sign := if scaled < 0 then "-" else ""
  let a := scaled.natAbs
  sign ++ toString (a / 10) ++ "." ++ toString (a % 10)

/-- The rating string of a `DisplayProduct`: numeric ratings become
`"X.X/5.0"`, otherwise the researched item's own prior rating is used. -/
def ratingString (entry : RankingEntryM) (p : RProdM) : Option String :=
  match entry.rating with
  | some q => some (formatOneDecimal q ++ "/5.0")
  | Option.none => p.priorRating

structure DisplayProductM where
  productId : String
  name : String
  rating : Option String
deriving DecidableEq, Repr

def buildDisplay (entry : RankingEntryM) (p : RProdM) : DisplayProductM :=
  { productId := p.extractionId, name := p.title, rating := ratingString entry p }

/-- The reconciliation loop of `generate_comparison_payload`: unmatched
entries are skipped, matched ones are appended in ranking order; an empty
result raises `ValueError`. -/
def reconcileRankings (rankings : List RankingEntryM) (research : List RProdM) :
    Except String (List DisplayProductM) :=
  let ordered := rankings.filterMap
    (fun e => (matchResearchProduct e research).map (buildDisplay e))
  if ordered.isEmpty then
    .error "Comparison synthesis did not return any ranked products."
  else .ok ordered

/-! ## Orchestrator (`ProductComparisonAgent.compare_products`) -/

structure ProgressEvent where
  step : String
  status : String
  progress : Nat
deriving DecidableEq, Repr

inductive Action where
  | stageRun (name : String)
  | progress (e : ProgressEvent)
  | cacheWrite (key : String)
deriving DecidableEq, Repr

inductive WorkflowError where
  | budgetExceeded
  | valueError (msg : String)
  | callbackError (msg : String)
deriving DecidableEq, Repr

/-- The externally visible response, reduced to the fields the claims
mention. -/
structure ModelResponse where
  apiCalls : Nat
  cachedResult : Bool
deriving DecidableEq, Repr

structure DiscoveryOutcomeM where
  apiCalls : Nat
  candidateCount : Nat
deriving DecidableEq, Repr

structure ResearchOutcomeM where
  apiCalls : Nat
  productCount : Nat
deriving DecidableEq, Repr

structure ComparisonOutcomeM where
  apiCalls : Nat
deriving DecidableEq, Repr

/-- A caller-supplied progress callback; `some msg` models an exception the
callback raises. -/
abbrev ProgressCallback := Option (ProgressEvent → Option String)

/-- The model of `if progress_callback: progress_callback(...)` for a sequence of events.
There is no `try/except` around the invocation, so a raised exception
propagates. -/
def emitSeq (cb : ProgressCallback) : List ProgressEvent → List Action × Except WorkflowError Unit
  | [] => ([], .ok ())
  | e :: rest =>
    match cb with
    | Option.none => ([], .ok ())
    | some f =>
      match f e with
      | some msg => ([.progress e], .error (.callbackError msg))
      | Option.none =>
        let tail := emitSeq cb rest
        (.progress e :: tail.1, tail.2)

def discoveryEvent : ProgressEvent := { step := "discovery", status := "complete", progress := 33 }

def researchEvent : ProgressEvent := { step := "research", status := "complete", progress := 66 }

def comparisonEvent : ProgressEvent := { step := "comparison", status := "complete", progress := 100 }

/-- The body of the `async with asyncio.timeout(...)` block of
`compare_products` (lines 80-207): per stage, cost accumulation, then
`_ensure_budget` (which raises the distinguished `WorkflowBudgetExceeded`
when `api_calls > settings.max_api_calls_per_comparison` — inlined here at
its three call sites), progress callback, data validation; finally the
guarded comparison-cache write.  The three stage outcomes are parameters (the
orchestrator only reads each stage's envelope).  Returns the trace of
observable actions performed and the result. -/
def compareProductsLive (maxCalls : Nat) (cacheEnabled : Bool) (key : String)
    (useCache : Bool) (cb : ProgressCallback)
    (discovery : DiscoveryOutcomeM) (research : ResearchOutcomeM)
    (comparison : ComparisonOutcomeM) :
    List Action × Except WorkflowError ModelResponse :=
  let t0 := [Action.stageRun "discovery"]
  let calls1 := discovery.apiCalls
  if calls1 > maxCalls then (t0, .error .budgetExceeded)
  else
    let e1 := emitSeq cb [discoveryEvent]
    match e1.2 with
    | .error e => (t0 ++ e1.1, .error e)
    | .ok _ =>
      if discovery.candidateCount = 0 then
        (t0 ++ e1.1, .error (.valueError "Discovery did not return any products."))
      else
        let t1 := t0 ++ e1.1 ++ [Action.stageRun "research"]
        let calls2 := calls1 + research.apiCalls
        if calls2 > maxCalls then (t1, .error .budgetExceeded)
        else
          let e2 := emitSeq cb [researchEvent]
          match e2.2 with
          | .error e => (t1 ++ e2.1, .error e)
          | .ok _ =>
            if research.productCount < 2 then
              (t1 ++ e2.1, .error (.valueError "Insufficient product data extracted."))
            else
              let t2 := t1 ++ e2.1 ++ [Action.stageRun "comparison"]
              let calls3 := calls2 + comparison.apiCalls
              if calls3 > maxCalls then (t2, .error .budgetExceeded)
              else
                let e3 := emitSeq cb [comparisonEvent]
                match e3.2 with
                | .error e => (t2 ++ e3.1, .error e)
                | .ok _ =>
                  let writes :=
                    if useCache && cacheEnabled then [Action.cacheWrite key] else []
                  (t2 ++ e3.1 ++ writes,
                   .ok { apiCalls := calls3, cachedResult := false })

/-- The model of `compare_products`: derive the comparison cache key, consult the cache
when `use_cache` is set (a hit replays the three synthetic progress events
and returns the cached response flagged `cached_result=True`), otherwise run
the live pipeline. -/
def compareProducts (maxCalls : Nat) (cacheEnabled : Bool)
    (category : String) (constraints : Option String) (useCache : Bool)
    (cache : String → Option ModelResponse) (cb : ProgressCallback)
    (discovery : DiscoveryOutcomeM) (research : ResearchOutcomeM)
    (comparison : ComparisonOutcomeM) :
    List Action × Except WorkflowError ModelResponse :=
  let key := comparisonCacheKey category constraints
  match (if useCache then cache key else Option.none) with
  | some cachedResp =>
    let resp := { cachedResp with cachedResult := true }
    let emitted := emitSeq cb [discoveryEvent, researchEvent, comparisonEvent]
    match emitted.2 with
    | .error e => (emitted.1, .error e)
    | .ok _ => (emitted.1, .ok resp)
  | Option.none =>
    compareProductsLive maxCalls cacheEnabled key useCache cb discovery research comparison

/-! ## CPython name-binding facts about `compare_products` (claim C2)

`compare_products` assigns `research_products` at line 129, which under
CPython scoping makes the name local to the whole function body, so the
call `await research_products(...)` at line 113 raises `UnboundLocalError`;
that call also omits the required keyword-only parameter `metrics` of
`steps.research_products`; and the synthesis call references the undefined
name `telemetry`.  The lists below are transcribed from the source. -/

structure PyParam where
  name : String
  hasDefault : Bool
deriving DecidableEq, Repr

/-- Keyword-only parameters of `steps.research_products` (lines 640-648). -/
def researchProductsParams : List PyParam :=
  [{ name := "settings", hasDefault := false },
   { name := "products", hasDefault := false },
   { name := "glm_client", hasDefault := false },
   { name := "cache", hasDefault := false },
   { name := "metrics", hasDefault := false },
   { name := "use_cache", hasDefault := true }]

/-- The keyword arguments the orchestrator passes at lines 113-119. -/
def orchestratorResearchCallKeywords : List String :=
  ["settings", "products", "glm_client", "cache", "use_cache"]

/-- Required parameters a call leaves unbound (CPython raises `TypeError`). -/
def missingRequiredKeywords (ps : List PyParam) (ks : List String) : List String :=
  (ps.filter (fun p => !p.hasDefault && !ks.contains p.name)).map (fun p => p.name)

/-- Simple-name assignment targets in the body of `compare_products`, with
their line numbers (attribute/subscript stores excluded, as they do not
create local bindings). -/
def compareProductsAssignments : List (String × Nat) :=
  [("start_time", 59), ("api_calls", 60), ("used_fallback", 61), ("category", 62),
   ("constraints", 63), ("cache_hash", 64), ("comparison_cache_key", 65),
   ("step_timings", 66), ("cached_response", 69), ("response", 73),
   ("discovery_start", 81), ("discovery_outcome", 82), ("discovery_duration", 90),
   ("metrics_result", 92), ("api_calls", 93), ("candidates", 100),
   ("research_start", 112), ("research_outcome", 113), ("research_duration", 120),
   ("api_calls", 122), ("research_products", 129), ("comparison_start", 148),
   ("comparison_outcome", 149), ("comparison_duration", 156), ("api_calls", 158),
   ("comparison_payload", 165), ("display_products", 166), ("stats", 175),
   ("response", 191)]

/-- The parameters of `compare_products` itself. -/
def compareProductsParams : List String := ["self", "request", "progress_callback"]

/-- Names bound at module level in `orchestrator.py` (imports and top-level
definitions). -/
def orchestratorModuleNames : List String :=
  ["annotations", "asyncio", "hashlib", "dataclass", "perf_counter", "Any",
   "Callable", "Sequence", "GlmClient", "ProductResearch", "glm_discovery",
   "research_products", "generate_comparison_payload", "RedisCache", "get_logger",
   "CandidateProduct", "CompareRequest", "ComparisonResponse", "WorkflowStats",
   "Settings", "get_settings", "logger", "WorkflowBudgetExceeded", "_hash_query",
   "ProductComparisonAgent"]

/-- Top-level names defined in `backend/agent/steps.py`. -/
def stepsModuleNames : List String :=
  ["annotations", "asyncio", "json", "re", "dataclass", "field", "datetime",
   "perf_counter", "quote", "urlparse", "Any", "Generic", "Sequence", "TypeVar",
   "httpx", "prompts", "GlmClient", "RedisCache", "get_logger", "CandidateProduct",
   "ComparisonPayload", "DisplayProduct", "MetricComparison", "MetricsResult",
   "ProductExtraction", "Settings", "logger", "T", "StepOutcome", "ResearchProduct",
   "_normalize_category", "_generate_product_id", "_serialize", "_strip_json_fences",
   "_format_price_cents", "_proxy_image_url", "_fetch_open_graph_image",
   "_PRICE_STRING_KEYS", "_parse_price_string", "_normalize_numeric_price",
   "_extract_price_cents", "glm_discovery", "_product_cache_key",
   "_load_cached_research", "_store_cached_research", "_run_image_search",
   "_run_product_research", "research_products", "_match_research_product",
   "_build_metric_comparison_table", "generate_comparison_payload", "__all__"]

/-- Lines at which a given name is assigned inside `compare_products`. -/
def assignmentLines (name : String) : List Nat :=
  (compareProductsAssignments.filter (fun a => a.1 == name)).map (fun a => a.2)

/-! ## Theorems -/

/-- C7: price extraction tries string-typed price fields first (currency
words stripped, first numeric token, dollars to integer cents) and numeric
fields second (floats `<100000` are dollars-times-100; ints with `<=4` digits
dollars, `>=5` digits cents); `"$1,999.00"` yields `199900`, int `199900`
yields `199900`, int `199` yields `19900`, unparseable input yields `0`
without an error; the last conjunct shows a later string-typed field winning
over an earlier numeric `price` field. -/
theorem c7_price_extraction :
    extractPriceCents [("price", PyVal.str "$1,999.00")] = (199900, "price") ∧
    extractPriceCents [("price", PyVal.int 199900)] = (199900, "price") ∧
    extractPriceCents [("price", PyVal.int 199)] = (19900, "price") ∧
    extractPriceCents [("price", PyVal.str "not available")] = (0, "unparsed") ∧
    extractPriceCents [("price", PyVal.noneVal)] = (0, "unparsed") ∧
    extractPriceCents [("price", PyVal.str "USD 49.99")] = (4999, "price") ∧
    extractPriceCents [("price", PyVal.float { num := 25, den := 2 })] = (1250, "price") ∧
    extractPriceCents [("price", PyVal.int 500), ("price_display", PyVal.str "$3.00")] =
      (300, "price_display") := by
  decide

/-- C2 (code bug): the orchestrator's research call at line 113 omits the
required keyword-only `metrics` parameter of `steps.research_products`; the
name `research_products` is assigned inside `compare_products` only at line
129, after its use at line 113, so CPython raises `UnboundLocalError` there;
the name `telemetry` used at line 153 is bound nowhere (not a local, not a
parameter, not a module-level name); and `ProductResearch`, imported by
`orchestrator.py`, does not exist in `backend/agent/steps.py`. -/
theorem c2_orchestrator_binding_bugs :
    missingRequiredKeywords researchProductsParams orchestratorResearchCallKeywords =
      ["metrics"] ∧
    assignmentLines "research_products" = [129] ∧
    113 < 129 ∧
    "telemetry" ∉ compareProductsAssignments.map Prod.fst ∧
    "telemetry" ∉ compareProductsParams ∧
    "telemetry" ∉ orchestratorModuleNames ∧
    "ProductResearch" ∉ stepsModuleNames := by
  decide

/-- C8 counterexample: with `glm_max_retries = 2` (three attempts allowed),
an auth failure (401/403, `GlmClientError`) and a transport timeout
(`GlmTimeoutError`) each surface fatally after a single attempt — they are
not retried, contradicting the claim that auth and transport-timeout
failures are retried with backoff. -/
theorem c8_counterexample :
    glmPost 2 (fun _ => (Except.error GlmFailure.auth : Except GlmFailure Unit)) =
      (PostOutcome.fatal GlmFailure.auth, 1) ∧
    glmPost 2 (fun _ => (Except.error GlmFailure.timeout : Except GlmFailure Unit)) =
      (PostOutcome.fatal GlmFailure.timeout, 1) ∧
    1 < 2 + 1 := by
  decide

lemma retryGo_all_retriable {α : Type} (f : Nat → Except GlmFailure α) (e : GlmFailure)
    (he : retriable e = true) (hf : ∀ i, f i = Except.error e) :
    ∀ fuel i, 1 ≤ fuel → retryGo f i fuel = (PostOutcome.retriesExhausted, i + fuel) := by
  intro fuel
  induction fuel with
  | zero => intro i h; omega
  | succ n ih =>
    intro i _
    unfold retryGo
    rw [hf i]
    simp only [he, if_true]
    by_cases hn : n = 0
    · subst hn; simp
    · simp only [hn, if_false]
      rw [ih (i + 1) (Nat.one_le_iff_ne_zero.mpr hn)]
      simp [Nat.add_assoc, Nat.add_comm 1 n]

/-- C8 (amended): only rate-limit (`GlmRateLimitError`) and non-timeout
transport (`httpx.RequestError`) failures are retried, up to
`glm_max_retries + 1` attempts, before surfacing as the fatal
exceeded-retries error; auth failures and transport timeouts (converted to
`GlmTimeoutError`) surface fatally on the first occurrence; a retriable
failure followed by a success recovers. -/
theorem c8_retry_policy {α : Type} (maxRetries : Nat) (f : Nat → Except GlmFailure α) :
    (∀ e, retriable e = false → f 0 = Except.error e →
      glmPost maxRetries f = (PostOutcome.fatal e, 1)) ∧
    (∀ e, retriable e = true → (∀ i, f i = Except.error e) →
      glmPost maxRetries f = (PostOutcome.retriesExhausted, maxRetries + 1)) ∧
    (∀ a e, retriable e = true → f 0 = Except.error e → f 1 = Except.ok a →
      1 ≤ maxRetries → glmPost maxRetries f = (PostOutcome.ok a, 2)) := by
  refine ⟨?_, ?_, ?_⟩
  · intro e he hf
    unfold glmPost retryGo
    rw [hf]
    simp [he]
  · intro e he hf
    unfold glmPost
    rw [retryGo_all_retriable f e he hf (maxRetries + 1) 0 (by omega)]
    simp
  · intro a e he hf0 hf1 hm
    unfold glmPost retryGo
    rw [hf0]
    simp only [he, if_true]
    have : maxRetries ≠ 0 := by omega
    simp only [this, if_false]
    obtain ⟨m, rfl⟩ : ∃ m, maxRetries = m + 1 := ⟨maxRetries - 1, by omega⟩
    unfold retryGo
    rw [hf1]

/-- Witness for `c8_retry_policy`: three attempts on persistent rate-limit
failures, one attempt on an auth failure. -/
theorem c8_retry_policy_witness :
    glmPost 2 (fun _ => (Except.error GlmFailure.rateLimit : Except GlmFailure Unit)) =
      (PostOutcome.retriesExhausted, 3) ∧
    glmPost 2 (fun i => if i = 0 then (Except.error GlmFailure.transportOther :
        Except GlmFailure Unit) else Except.ok ()) = (PostOutcome.ok (), 2) :=
  ⟨(c8_retry_policy 2 _).2.1 GlmFailure.rateLimit (by decide) (fun _ => rfl),
   (c8_retry_policy 2 _).2.2 () GlmFailure.transportOther (by decide) rfl rfl (by omega)⟩

def searchToolCall : ToolCallM :=
  { type := "function", functionName := "web_search", query := "best laptops under 1000" }

def c3Provider : Nat → ResponseM := fun i =>
  if i = 0 then { hasChoices := true, toolCalls := [searchToolCall], usageSearchSteps := 0 }
  else { hasChoices := true, toolCalls := [], usageSearchSteps := 0 }

/-- C3 counterexample: with `max_searches = 0`, a provider response carrying
a `web_search` tool call is *executed* — `is_search_call and max_searches > 0`
is false, so the call falls into the generic `_execute_tool_call` branch and
reaches the search provider — contradicting the claim that no search call is
ever dispatched. -/
theorem c3_counterexample :
    (runToolLoop 0 c3Provider).dispatches = [(searchToolCall, Dispatch.executed)] ∧
    hitsSearchProvider searchToolCall Dispatch.executed = true := by
  decide

lemma classifyGo_zero_executed (rem : Option Int) (tcs : List ToolCallM) :
    ∀ p ∈ classifyGo 0 rem tcs, p.2.1 = Dispatch.executed := by
  induction tcs generalizing rem with
  | nil => simp [classifyGo]
  | cons tc rest ih =>
    intro p hp
    have hcond : (isSearchCall tc && decide ((0 : Nat) > 0)) = false := by
      simp
    simp only [classifyGo, hcond, Bool.false_eq_true, if_false, List.mem_cons] at hp
    rcases hp with h | h
    · simp [h]
    · exact ih rem p h

lemma runToolLoopAux_providerCalls (ms : Nat) (provider : Nat → ResponseM) :
    ∀ fuel iter s t disp last,
      (runToolLoopAux ms provider fuel iter s t disp last).providerCalls ≤ iter + fuel := by
  intro fuel
  induction fuel with
  | zero => intro iter s t disp last; simp [runToolLoopAux]
  | succ n ih =>
    intro iter s t disp last
    unfold runToolLoopAux
    dsimp only
    split
    · simp
    · split
      · simp
      · calc (runToolLoopAux ms provider n (iter + 1) _ _ _ _).providerCalls
            ≤ (iter + 1) + n := ih _ _ _ _ _
          _ ≤ iter + (n + 1) := by omega

lemma runToolLoopAux_zero_executed (provider : Nat → ResponseM) :
    ∀ fuel iter s t disp last,
      (∀ p ∈ disp, p.2 = Dispatch.executed) →
      ∀ p ∈ (runToolLoopAux 0 provider fuel iter s t disp last).dispatches,
        p.2 = Dispatch.executed := by
  intro fuel
  induction fuel with
  | zero => intro iter s t disp last hdisp; simpa [runToolLoopAux] using hdisp
  | succ n ih =>
    intro iter s t disp last hdisp
    unfold runToolLoopAux
    dsimp only
    split
    · simpa using hdisp
    · split
      · simpa using hdisp
      · refine ih _ _ _ _ _ ?_
        intro p hp
        rcases List.mem_append.mp hp with h | h
        · exact hdisp p h
        · rcases List.mem_map.mp h with ⟨q, hq, rfl⟩
          exact classifyGo_zero_executed _ _ q hq

/-- C3 (amended): with `max_searches = 0` the loop still terminates within
the default ceiling of 6 iterations (at most 6 provider round-trips), but a
`web_search` tool call present in a response is *executed* (dispatched via
`_execute_tool_call`, reaching the search provider) rather than
short-circuited — the budget short-circuit applies only when
`max_searches > 0`. -/
theorem c3_zero_budget_loop (provider : Nat → ResponseM) :
    (runToolLoop 0 provider).providerCalls ≤ 6 ∧
    maxToolIterations 0 = 6 ∧
    (∀ p ∈ (runToolLoop 0 provider).dispatches, p.2 = Dispatch.executed) := by
  refine ⟨?_, rfl, ?_⟩
  · have := runToolLoopAux_providerCalls 0 provider (maxToolIterations 0) 0 0 0 [] Option.none
    simpa [runToolLoop, maxToolIterations] using this
  · exact runToolLoopAux_zero_executed provider _ 0 0 0 [] Option.none (by simp)

/-- Witness for `c3_zero_budget_loop` at a provider that requests a search. -/
theorem c3_zero_budget_loop_witness :
    (runToolLoop 0 c3Provider).providerCalls ≤ 6 ∧
    (searchToolCall, Dispatch.executed).2 = Dispatch.executed :=
  ⟨(c3_zero_budget_loop c3Provider).1,
   (c3_zero_budget_loop c3Provider).2.2 (searchToolCall, Dispatch.executed) (by decide)⟩

def candAlpha : CandidateM := { productId := some "p1_alpha", name := "Alpha" }

def candBeta : CandidateM := { productId := some "p2_beta", name := "Beta" }

def resAlpha : ResearchItemM := { candidateId := "p1_alpha", title := "Alpha X1" }

def resBeta : ResearchItemM := { candidateId := "p2_beta", title := "Beta Y2" }

def workerAlpha : WorkerInputM :=
  { candidate := candAlpha, cached := Option.none, live := Except.ok (resAlpha, 1) }

def workerBeta : WorkerInputM :=
  { candidate := candBeta, cached := Option.none, live := Except.ok (resBeta, 1) }

/-- Lexicographic (code-point) comparison of strings as char lists — the
order Python's `sorted` would use on candidate ids. -/
def strLeB : List Char → List Char → Bool
  | [], _ => true
  | _ :: _, [] => false
  | a :: as, b :: bs => if a < b then true else if b < a then false else strLeB as bs

def idSorted (l : List ResearchItemM) : Prop :=
  List.Pairwise (fun x y => strLeB x.candidateId.data y.candidateId.data = true) l

/-- C5 counterexample: when the worker for `p2_beta` completes before the
worker for `p1_alpha`, the success list handed to synthesis is
`[p2_beta, p1_alpha]` — completion order, not sorted by candidate id; no
sort is performed in `research_products` before returning. -/
theorem c5_counterexample :
    (researchProductsAgg false "20261012" [workerBeta, workerAlpha]).1.successes =
      [resBeta, resAlpha] ∧
    ¬ idSorted (researchProductsAgg false "20261012" [workerBeta, workerAlpha]).1.successes := by
  have h1 : (researchProductsAgg false "20261012" [workerBeta, workerAlpha]).1.successes =
      [resBeta, resAlpha] := rfl
  refine ⟨h1, ?_⟩
  rw [idSorted, h1]
  decide

/-- The item a finished worker contributes to the success list, if any. -/
def workerSuccess (useCache : Bool) (dateKey : String) (w : WorkerInputM) :
    Option ResearchItemM :=
  match runWorker useCache dateKey w with
  | .cacheHit r => some r
  | .success r _ _ => some r
  | .failure _ _ => Option.none

lemma researchFold_successes (useCache : Bool) (dateKey : String) :
    ∀ (l : List WorkerInputM) (acc : ResearchAgg),
      (l.foldl (fun a w => aggStep a (runWorker useCache dateKey w)) acc).successes =
        acc.successes ++ l.filterMap (workerSuccess useCache dateKey) := by
  intro l
  induction l with
  | nil => intro acc; simp
  | cons w rest ih =>
    intro acc
    simp only [List.foldl_cons, List.filterMap_cons]
    rw [ih]
    unfold workerSuccess aggStep
    rcases runWorker useCache dateKey w with r | ⟨r, s, k⟩ | ⟨n, e⟩ <;> simp

/-- C5 (amended): the success list `research_products` returns is exactly the
workers' contributions in completion order — no sort by candidate id (or any
reordering) is applied before synthesis; additionally the step's `api_calls`
equals total searches plus the number of failures. -/
theorem c5_completion_order (useCache : Bool) (dateKey : String)
    (completionOrder : List WorkerInputM) :
    (researchProductsAgg useCache dateKey completionOrder).1.successes =
      completionOrder.filterMap (workerSuccess useCache dateKey) ∧
    (researchProductsAgg useCache dateKey completionOrder).2 =
      (researchProductsAgg useCache dateKey completionOrder).1.totalSearches +
        (researchProductsAgg useCache dateKey completionOrder).1.failures.length := by
  constructor
  · simpa [researchProductsAgg, emptyAgg] using
      researchFold_successes useCache dateKey completionOrder emptyAgg
  · rfl

/-- C9: ranking reconciliation matches first by exact product id (candidate
or extraction id — independently of titles), falls back to case-insensitive
exact title only when the id search yields nothing, drops unmatched entries
from the output, fails with an error when zero entries match, and outputs in
ranking order exactly. -/
theorem c9_ranking_reconciliation (rankings : List RankingEntryM) (research : List RProdM) :
    (∀ e p, optTruthy e.productId = true →
      research.find? (idMatches (e.productId.getD "")) = some p →
      matchResearchProduct e research = some p) ∧
    (∀ e, (if optTruthy e.productId then research.find? (idMatches (e.productId.getD ""))
           else Option.none) = Option.none →
      matchResearchProduct e research =
        (if optTruthy e.productTitle then
          research.find? (fun p => p.title.toLower.trim == (e.productTitle.getD "").toLower.trim)
         else Option.none)) ∧
    (∀ l, reconcileRankings rankings research = Except.ok l →
      l = rankings.filterMap
        (fun e => (matchResearchProduct e research).map (buildDisplay e)) ∧ l ≠ []) ∧
    ((∀ e ∈ rankings, matchResearchProduct e research = Option.none) →
      reconcileRankings rankings research =
        Except.error "Comparison synthesis did not return any ranked products.") := by
  refine ⟨?_, ?_, ?_, ?_⟩
  · intro e p ht hf
    unfold matchResearchProduct
    rw [if_pos ht, hf]
  · intro e h
    unfold matchResearchProduct
    rw [h]
  · intro l hl
    simp only [reconcileRankings] at hl
    split at hl
    · cases hl
    · cases hl
      refine ⟨rfl, ?_⟩
      intro hnil
      simp_all
  · intro hall
    have hnil : rankings.filterMap
        (fun e => (matchResearchProduct e research).map (buildDisplay e)) = [] := by
      rw [List.filterMap_eq_nil_iff]
      intro e he
      rw [hall e he]
      rfl
    simp only [reconcileRankings, hnil]
    rfl

def entryP1 : RankingEntryM :=
  { productId := some "p1", productTitle := some "Different Title", rank := some 1,
    rating := some { num := 9, den := 2 } }

def prodP1 : RProdM :=
  { candidateId := "cand_zzz", extractionId := "p1", title := "Actual Product Name",
    priorRating := Option.none }

/-- Witness for `c9_ranking_reconciliation`: the entry with id `"p1"` is
matched to the product whose *extraction* id is `"p1"` although every title
differs, and reconciling an empty ranking list fails with the error. -/
theorem c9_ranking_reconciliation_witness :
    matchResearchProduct entryP1 [prodP1] = some prodP1 ∧
    reconcileRankings [] [prodP1] =
      Except.error "Comparison synthesis did not return any ranked products." :=
  ⟨(c9_ranking_reconciliation [] [prodP1]).1 entryP1 prodP1 (by decide) (by decide),
   (c9_ranking_reconciliation [] [prodP1]).2.2.2 (by simp)⟩

lemma emitSeq_actions_progress (cb : ProgressCallback) (es : List ProgressEvent) :
    ∀ a ∈ (emitSeq cb es).1, ∃ e, a = Action.progress e := by
  induction es with
  | nil => simp [emitSeq]
  | cons e rest ih =>
    cases cb with
    | none => simp [emitSeq]
    | some f =>
      simp only [emitSeq]
      cases hf : f e with
      | some msg => simp
      | none =>
        intro a ha
        rcases List.mem_cons.mp ha with h | h
        · exact ⟨e, h⟩
        · exact ih a h

lemma emitSeq_no_stageRun (cb : ProgressCallback) (es : List ProgressEvent) (n : String) :
    Action.stageRun n ∉ (emitSeq cb es).1 := by
  intro h
  rcases emitSeq_actions_progress cb es _ h with ⟨e, he⟩
  cases he

lemma emitSeq_no_cacheWrite (cb : ProgressCallback) (es : List ProgressEvent) (k : String) :
    Action.cacheWrite k ∉ (emitSeq cb es).1 := by
  intro h
  rcases emitSeq_actions_progress cb es _ h with ⟨e, he⟩
  cases he

lemma emitSeq_ok (f : ProgressEvent → Option String) (hf : ∀ e, f e = Option.none) :
    ∀ es : List ProgressEvent, emitSeq (some f) es = (es.map Action.progress, Except.ok ()) := by
  intro es
  induction es with
  | nil => rfl
  | cons e rest ih => simp [emitSeq, hf e, ih]

lemma compareProducts_miss {maxCalls : Nat} {cacheEnabled : Bool} {category : String}
    {constraints : Option String} {useCache : Bool} {cache : String → Option ModelResponse}
    {cb : ProgressCallback} {discovery : DiscoveryOutcomeM} {research : ResearchOutcomeM}
    {comparison : ComparisonOutcomeM}
    (hmiss : (if useCache then cache (comparisonCacheKey category constraints)
              else Option.none) = Option.none) :
    compareProducts maxCalls cacheEnabled category constraints useCache cache cb
        discovery research comparison =
      compareProductsLive maxCalls cacheEnabled (comparisonCacheKey category constraints)
        useCache cb discovery research comparison := by
  simp only [compareProducts]
  rw [hmiss]

lemma live_ok {maxCalls : Nat} {cacheEnabled : Bool} {key : String} {useCache : Bool}
    {cb : ProgressCallback} {d : DiscoveryOutcomeM} {r : ResearchOutcomeM}
    {c : ComparisonOutcomeM} {resp : ModelResponse} :
    (compareProductsLive maxCalls cacheEnabled key useCache cb d r c).2 = Except.ok resp →
      resp = { apiCalls := d.apiCalls + r.apiCalls + c.apiCalls, cachedResult := false } ∧
      d.apiCalls + r.apiCalls + c.apiCalls ≤ maxCalls := by
  simp only [compareProductsLive]
  repeat' split
  all_goals intro h
  all_goals (cases h <;> exact ⟨rfl, by omega⟩)

lemma live_research_mem {maxCalls : Nat} {cacheEnabled : Bool} {key : String}
    {useCache : Bool} {cb : ProgressCallback} {d : DiscoveryOutcomeM}
    {r : ResearchOutcomeM} {c : ComparisonOutcomeM} :
    Action.stageRun "research" ∈
        (compareProductsLive maxCalls cacheEnabled key useCache cb d r c).1 →
      d.apiCalls ≤ maxCalls := by
  simp only [compareProductsLive]
  repeat' split
  all_goals intro h
  all_goals first
    | omega
    | (exfalso; revert h; simp [emitSeq_no_stageRun])

lemma live_comparison_mem {maxCalls : Nat} {cacheEnabled : Bool} {key : String}
    {useCache : Bool} {cb : ProgressCallback} {d : DiscoveryOutcomeM}
    {r : ResearchOutcomeM} {c : ComparisonOutcomeM} :
    Action.stageRun "comparison" ∈
        (compareProductsLive maxCalls cacheEnabled key useCache cb d r c).1 →
      d.apiCalls + r.apiCalls ≤ maxCalls := by
  simp only [compareProductsLive]
  repeat' split
  all_goals intro h
  all_goals first
    | omega
    | (exfalso; revert h; simp [emitSeq_no_stageRun])

lemma live_discovery_budget {maxCalls : Nat} {cacheEnabled : Bool} {key : String}
    {useCache : Bool} {cb : ProgressCallback} {d : DiscoveryOutcomeM}
    {r : ResearchOutcomeM} {c : ComparisonOutcomeM} (hgt : maxCalls < d.apiCalls) :
    compareProductsLive maxCalls cacheEnabled key useCache cb d r c =
      ([Action.stageRun "discovery"], Except.error WorkflowError.budgetExceeded) := by
  simp only [compareProductsLive]
  rw [if_pos hgt]

lemma live_research_budget {maxCalls : Nat} {cacheEnabled : Bool} {key : String}
    {useCache : Bool} {cb : ProgressCallback} {d : DiscoveryOutcomeM}
    {r : ResearchOutcomeM} {c : ComparisonOutcomeM}
    (hgt : maxCalls < d.apiCalls + r.apiCalls) :
    Action.stageRun "research" ∈
        (compareProductsLive maxCalls cacheEnabled key useCache cb d r c).1 →
      (compareProductsLive maxCalls cacheEnabled key useCache cb d r c).2 =
        Except.error WorkflowError.budgetExceeded := by
  simp only [compareProductsLive]
  repeat' split
  all_goals intro h
  all_goals first
    | omega
    | rfl
    | (exfalso; revert h; simp [emitSeq_no_stageRun])

lemma live_comparison_budget {maxCalls : Nat} {cacheEnabled : Bool} {key : String}
    {useCache : Bool} {cb : ProgressCallback} {d : DiscoveryOutcomeM}
    {r : ResearchOutcomeM} {c : ComparisonOutcomeM}
    (hgt : maxCalls < d.apiCalls + r.apiCalls + c.apiCalls) :
    Action.stageRun "comparison" ∈
        (compareProductsLive maxCalls cacheEnabled key useCache cb d r c).1 →
      (compareProductsLive maxCalls cacheEnabled key useCache cb d r c).2 =
        Except.error WorkflowError.budgetExceeded := by
  simp only [compareProductsLive]
  repeat' split
  all_goals intro h
  all_goals first
    | omega
    | rfl
    | (exfalso; revert h; simp [emitSeq_no_stageRun])

/-- C1: whenever `compare_products` runs the live pipeline (no cache hit)
and returns successfully, the `api_calls` reported in the final stats is the
sum of the three stage costs and never exceeds
`settings.max_api_calls_per_comparison`; the cumulative count is checked
right after each stage, so a stage only starts if the cumulative count
through the previous stage is within budget, and any violation aborts with
the distinguished `WorkflowBudgetExceeded` error (never a generic error)
before the next stage starts. -/
theorem c1_budget_enforcement (maxCalls : Nat) (cacheEnabled : Bool) (category : String)
    (constraints : Option String) (useCache : Bool) (cache : String → Option ModelResponse)
    (cb : ProgressCallback) (d : DiscoveryOutcomeM) (r : ResearchOutcomeM)
    (c : ComparisonOutcomeM)
    (hmiss : (if useCache then cache (comparisonCacheKey category constraints)
              else Option.none) = Option.none) :
    (∀ resp,
      (compareProducts maxCalls cacheEnabled category constraints useCache cache cb d r c).2 =
        Except.ok resp → resp.apiCalls ≤ maxCalls) ∧
    (Action.stageRun "research" ∈
        (compareProducts maxCalls cacheEnabled category constraints useCache cache cb d r c).1 →
      d.apiCalls ≤ maxCalls) ∧
    (Action.stageRun "comparison" ∈
        (compareProducts maxCalls cacheEnabled category constraints useCache cache cb d r c).1 →
      d.apiCalls + r.apiCalls ≤ maxCalls) ∧
    (maxCalls < d.apiCalls →
      compareProducts maxCalls cacheEnabled category constraints useCache cache cb d r c =
        ([Action.stageRun "discovery"], Except.error WorkflowError.budgetExceeded)) ∧
    (maxCalls < d.apiCalls + r.apiCalls →
      Action.stageRun "research" ∈
        (compareProducts maxCalls cacheEnabled category constraints useCache cache cb d r c).1 →
      (compareProducts maxCalls cacheEnabled category constraints useCache cache cb d r c).2 =
        Except.error WorkflowError.budgetExceeded) ∧
    (maxCalls < d.apiCalls + r.apiCalls + c.apiCalls →
      Action.stageRun "comparison" ∈
        (compareProducts maxCalls cacheEnabled category constraints useCache cache cb d r c).1 →
      (compareProducts maxCalls cacheEnabled category constraints useCache cache cb d r c).2 =
        Except.error WorkflowError.budgetExceeded) := by
  rw [compareProducts_miss hmiss]
  refine ⟨?_, live_research_mem, live_comparison_mem, live_discovery_budget,
    fun hgt => live_research_budget hgt, fun hgt => live_comparison_budget hgt⟩
  intro resp hresp
  rcases live_ok hresp with ⟨rfl, hle⟩
  exact hle

/-- Witness for `c1_budget_enforcement`: with a ceiling of 3 and stage costs
2 + 1 + 1, the workflow aborts with `WorkflowBudgetExceeded` right after the
comparison stage. -/
theorem c1_budget_enforcement_witness :
    (compareProducts 3 true "Laptops" Option.none false (fun _ => Option.none) Option.none
      { apiCalls := 2, candidateCount := 2 } { apiCalls := 1, productCount := 2 }
      { apiCalls := 1 }).2 = Except.error WorkflowError.budgetExceeded :=
  (c1_budget_enforcement 3 true "Laptops" Option.none false (fun _ => Option.none)
      Option.none { apiCalls := 2, candidateCount := 2 } { apiCalls := 1, productCount := 2 }
      { apiCalls := 1 } rfl).2.2.2.2.2 (by decide) (by decide)

/-- C4: with `use_cache=true` and a stored value under the comparison cache
key (`"comparison:" + sha256(lowercased-stripped category + "|" +
constraints)`), `compare_products` performs no stage (hence zero provider
calls), returns the cached response re-flagged `cached_result=true`, and
invokes the supplied progress callback with exactly the synthetic
33/66/100 sequence before returning. -/
theorem c4_cache_hit (maxCalls : Nat) (cacheEnabled : Bool) (category : String)
    (constraints : Option String) (cache : String → Option ModelResponse)
    (payload : ModelResponse) (f : ProgressEvent → Option String)
    (d : DiscoveryOutcomeM) (r : ResearchOutcomeM) (c : ComparisonOutcomeM)
    (hhit : cache (comparisonCacheKey category constraints) = some payload)
    (hf : ∀ e, f e = Option.none) :
    compareProducts maxCalls cacheEnabled category constraints true cache (some f) d r c =
      ([Action.progress discoveryEvent, Action.progress researchEvent,
        Action.progress comparisonEvent],
       Except.ok { payload with cachedResult := true }) ∧
    comparisonCacheKey category constraints =
      "comparison:" ++
        sha256Hex (utf8Bytes (category.toLower.trim ++ "|" ++ constraints.getD "")) := by
  refine ⟨?_, rfl⟩
  simp only [compareProducts]
  rw [hhit, emitSeq_ok f hf]
  simp

def c4Payload : ModelResponse := { apiCalls := 5, cachedResult := false }

def c4Cache : String → Option ModelResponse := fun k =>
  if k == comparisonCacheKey "Laptops" (some "under $1000") then some c4Payload
  else Option.none

/-- Witness for `c4_cache_hit` at a concrete populated cache. -/
theorem c4_cache_hit_witness :
    compareProducts 8 true "Laptops" (some "under $1000") true c4Cache
        (some (fun _ => Option.none)) { apiCalls := 1, candidateCount := 3 }
        { apiCalls := 4, productCount := 3 } { apiCalls := 1 } =
      ([Action.progress discoveryEvent, Action.progress researchEvent,
        Action.progress comparisonEvent],
       Except.ok { apiCalls := 5, cachedResult := true }) :=
  (c4_cache_hit 8 true "Laptops" (some "under $1000") c4Cache c4Payload
      (fun _ => Option.none) { apiCalls := 1, candidateCount := 3 }
      { apiCalls := 4, productCount := 3 } { apiCalls := 1 }
      (by simp [c4Cache]) (fun _ => rfl)).1

def c6Callback : ProgressEvent → Option String :=
  fun e => if e.step == "discovery" then some "boom" else Option.none

/-- C6 counterexample: the progress callbacks are invoked with no
`try/except`, so a callback that raises at the discovery boundary aborts the
whole workflow — the research stage never starts and `compare_products`
fails with the callback's error instead of proceeding, contradicting the
claim that callback exceptions never abort the workflow. -/
theorem c6_counterexample :
    (compareProducts 8 true "Laptops" (some "under $1000") false (fun _ => Option.none)
        (some c6Callback) { apiCalls := 1, candidateCount := 3 }
        { apiCalls := 4, productCount := 3 } { apiCalls := 1 }).2 =
      Except.error (WorkflowError.callbackError "boom") ∧
    Action.stageRun "research" ∉
      (compareProducts 8 true "Laptops" (some "under $1000") false (fun _ => Option.none)
        (some c6Callback) { apiCalls := 1, candidateCount := 3 }
        { apiCalls := 4, productCount := 3 } { apiCalls := 1 }).1 :=
  ⟨rfl, by decide⟩

/-- C6 (amended): an exception raised by the caller-supplied progress
callback at the discovery boundary propagates out of `compare_products`
(there is no guard around the invocation): the workflow aborts with the
callback's error and the next stage never starts. -/
theorem c6_callback_exception (maxCalls : Nat) (cacheEnabled : Bool) (category : String)
    (constraints : Option String) (useCache : Bool) (cache : String → Option ModelResponse)
    (f : ProgressEvent → Option String) (msg : String)
    (d : DiscoveryOutcomeM) (r : ResearchOutcomeM) (c : ComparisonOutcomeM)
    (hmiss : (if useCache then cache (comparisonCacheKey category constraints)
              else Option.none) = Option.none)
    (hbudget : d.apiCalls ≤ maxCalls) (hf : f discoveryEvent = some msg) :
    compareProducts maxCalls cacheEnabled category constraints useCache cache (some f) d r c =
      ([Action.stageRun "discovery", Action.progress discoveryEvent],
       Except.error (WorkflowError.callbackError msg)) := by
  rw [compareProducts_miss hmiss]
  simp only [compareProductsLive]
  rw [if_neg (by omega)]
  simp [emitSeq, hf]

/-- Witness for `c6_callback_exception`. -/
theorem c6_callback_exception_witness :
    compareProducts 8 true "Laptops" Option.none false (fun _ => Option.none)
        (some c6Callback) { apiCalls := 1, candidateCount := 3 }
        { apiCalls := 4, productCount := 3 } { apiCalls := 1 } =
      ([Action.stageRun "discovery", Action.progress discoveryEvent],
       Except.error (WorkflowError.callbackError "boom")) :=
  c6_callback_exception 8 true "Laptops" Option.none false (fun _ => Option.none)
    c6Callback "boom" { apiCalls := 1, candidateCount := 3 }
    { apiCalls := 4, productCount := 3 } { apiCalls := 1 } rfl (by decide) (by decide)

lemma live_no_cacheWrite {maxCalls : Nat} {cacheEnabled : Bool} {key : String}
    {cb : ProgressCallback} {d : DiscoveryOutcomeM} {r : ResearchOutcomeM}
    {c : ComparisonOutcomeM} (k : String) :
    Action.cacheWrite k ∉
      (compareProductsLive maxCalls cacheEnabled key false cb d r c).1 := by
  simp only [compareProductsLive]
  repeat' split
  all_goals intro h
  all_goals (revert h; simp_all [emitSeq_no_cacheWrite])

lemma live_ok_write {maxCalls : Nat} {key : String} {cb : ProgressCallback}
    {d : DiscoveryOutcomeM} {r : ResearchOutcomeM} {c : ComparisonOutcomeM}
    {resp : ModelResponse} :
    (compareProductsLive maxCalls true key true cb d r c).2 = Except.ok resp →
      Action.cacheWrite key ∈ (compareProductsLive maxCalls true key true cb d r c).1 := by
  simp only [compareProductsLive]
  repeat' split
  all_goals intro h
  all_goals cases h
  all_goals simp_all

/-- C10: the `use_cache` flag disables only cache *reads*: on the live path
the discovery step still writes its metrics-and-products payload under the
metrics key even with `use_cache=false`; a successful live research worker
still writes its per-product payload; and only the final comparison write is
guarded — absent with `use_cache=false`, present on a successful live run
with `use_cache=true` and the cache enabled. -/
theorem c10_writes_unguarded :
    (∀ (cachedMetrics : Option (List String)) (p : DiscoveryPayloadM) (category : String),
      p.status = "SUCCESS" → p.productNames ≠ [] →
      glmDiscoveryM false cachedMetrics (Except.ok p) category =
        Except.ok (1, false, [metricsCacheKey category])) ∧
    (∀ (dateKey : String) (w : WorkerInputM) (res : ResearchItemM) (s : Nat),
      w.live = Except.ok (res, s) →
      runWorker false dateKey w =
        WorkerOutcome.success res s (productCacheKey dateKey w.candidate)) ∧
    (∀ (maxCalls : Nat) (cacheEnabled : Bool) (category : String)
      (constraints : Option String) (cache : String → Option ModelResponse)
      (cb : ProgressCallback) (d : DiscoveryOutcomeM) (r : ResearchOutcomeM)
      (c : ComparisonOutcomeM) (k : String),
      Action.cacheWrite k ∉
        (compareProducts maxCalls cacheEnabled category constraints false cache cb d r c).1) ∧
    (∀ (maxCalls : Nat) (category : String) (constraints : Option String)
      (cache : String → Option ModelResponse) (cb : ProgressCallback)
      (d : DiscoveryOutcomeM) (r : ResearchOutcomeM) (c : ComparisonOutcomeM)
      (resp : ModelResponse),
      (compareProducts maxCalls true category constraints true cache cb d r c).2 =
        Except.ok resp →
      resp.cachedResult = false →
      Action.cacheWrite (comparisonCacheKey category constraints) ∈
        (compareProducts maxCalls true category constraints true cache cb d r c).1) := by
  refine ⟨?_, ?_, ?_, ?_⟩
  · intro cachedMetrics p category hstatus hne
    simp only [glmDiscoveryM, Bool.false_eq_true, if_false, hstatus]
    simp [hne]
  · intro dateKey w res s hlive
    simp only [runWorker, Bool.false_eq_true, if_false, runWorkerLive, hlive]
  · intro maxCalls cacheEnabled category constraints cache cb d r c k
    rw [compareProducts_miss (by rfl)]
    exact live_no_cacheWrite k
  · intro maxCalls category constraints cache cb d r c resp hok hflag
    simp only [compareProducts] at hok ⊢
    split at hok
    · split at hok
      · cases hok
      · cases hok
        cases hflag
    · exact live_ok_write hok

def candGamma : CandidateM := { productId := some "p3_gamma", name := "Gamma" }

def resGamma : ResearchItemM := { candidateId := "p3_gamma", title := "Gamma Z3" }

def workerGamma : WorkerInputM :=
  { candidate := candGamma, cached := Option.none, live := Except.ok (resGamma, 2) }

/-- Witness for `c10_writes_unguarded` at concrete inputs. -/
theorem c10_writes_unguarded_witness :
    glmDiscoveryM false Option.none
        (Except.ok { status := "SUCCESS", metrics := ["battery life"], productNames := ["Alpha"] })
        "Laptops" =
      Except.ok (1, false, [metricsCacheKey "Laptops"]) ∧
    runWorker false "20261012" workerGamma =
      WorkerOutcome.success resGamma 2 (productCacheKey "20261012" workerGamma.candidate) ∧
    Action.cacheWrite "comparison:abc" ∉
      (compareProducts 8 true "Laptops" Option.none false (fun _ => Option.none) Option.none
        { apiCalls := 1, candidateCount := 2 } { apiCalls := 1, productCount := 2 }
        { apiCalls := 1 }).1 ∧
    Action.cacheWrite (comparisonCacheKey "Laptops" Option.none) ∈
      (compareProducts 8 true "Laptops" Option.none true (fun _ => Option.none) Option.none
        { apiCalls := 1, candidateCount := 2 } { apiCalls := 1, productCount := 2 }
        { apiCalls := 1 }).1 :=
  ⟨c10_writes_unguarded.1 Option.none
      { status := "SUCCESS", metrics := ["battery life"], productNames := ["Alpha"] }
      "Laptops" rfl (by decide),
   c10_writes_unguarded.2.1 "20261012" workerGamma resGamma 2 rfl,
   c10_writes_unguarded.2.2.1 8 true "Laptops" Option.none (fun _ => Option.none)
      Option.none { apiCalls := 1, candidateCount := 2 } { apiCalls := 1, productCount := 2 }
      { apiCalls := 1 } "comparison:abc",
   c10_writes_unguarded.2.2.2 8 "Laptops" Option.none (fun _ => Option.none) Option.none
      { apiCalls := 1, candidateCount := 2 } { apiCalls := 1, productCount := 2 }
      { apiCalls := 1 } { apiCalls := 3, cachedResult := false } rfl rfl⟩

end CompareAgent
